import Mathlib

/-!
Verification of the Market State Detection & Alerting Engine
(src/market_radar.py).

The core of the program is embedded shallowly:
* floating-point market quantities (funding rate, volume ratio, percentage
  change, prices) become exact rationals;
* the fear/greed index and all scores become integers;
* UTC timestamps become integer seconds, so the 4-day glitch window is
  4 * 86400 seconds;
* the persisted JSON dict `meta_state.json` becomes the record `MetaState`,
  with `Option` fields for the keys the code pops and re-reads with defaults;
* every function is a total, computable Lean function translated clause by
  clause from the Python source.
-/

namespace MarketRadar

/-! ### Module-level configuration constants (src lines 20-46) -/

def FEAR_DEEP : ℤ := 30
def FEAR_EUPHORIA : ℤ := 75

def FUNDING_RETAIL : ℚ := 2/100
def FUNDING_EUPHORIA : ℚ := 5/100

def VOLUME_PRESTART : ℚ := 12/10
def VOLUME_START : ℚ := 15/10
def VOLUME_RETAIL : ℚ := 18/10
def VOLUME_CAPITULATION : ℚ := 22/10
def VOLUME_NORMAL : ℚ := 12/10

def GLITCH_DAYS : ℤ := 4

def WICK_RATIO_CONFIRM : ℚ := 55/100
def RANGE_SPIKE_MULT : ℚ := 125/100

def CONFIDENCE_DELTA_ALERT : ℤ := 15
def HEALTH_DELTA_ALERT : ℤ := 15
def BIAS_SCORE_DELTA_ALERT : ℤ := 12

def BIAS_BULL_SCORE : ℤ := 65
def BIAS_BEAR_SCORE : ℤ := 35
def BIAS_HYSTERESIS_RUNS : ℕ := 2

/-- Seconds in one calendar day; `timedelta(days=GLITCH_DAYS)` becomes
`GLITCH_DAYS * secondsPerDay` on integer-second timestamps. -/
def secondsPerDay : ℤ := 86400

/-! ### Enumerated string values used by the source -/

inductive Trend
  | UP
  | DOWN
  | RANGE
deriving DecidableEq

inductive Regime
  | BULL_MODE
  | BEAR_MODE
  | CHOP_MODE
deriving DecidableEq

inductive GlitchDir
  | BEAR_GLITCH
  | BULL_GLITCH
  | UNKNOWN
deriving DecidableEq

inductive Bias
  | BULLISH
  | BEARISH
  | NEUTRAL
deriving DecidableEq

inductive StateLabel
  | CAPITULATION_RISK
  | ABSORPTION_DETECTED
  | GLITCH_WINDOW_ACTIVE
  | LAG_WINDOW_ACTIVE
  | DEEP_FEAR
  | LIQUIDITY_TRAP
  | START_CONFIRMED
  | PRE_START
  | EUPHORIA
  | NEUTRAL
deriving DecidableEq

/-! ### Data model -/

/-- One OHLCV kline; the Python code reads k[1..5] as open/high/low/close/volume. -/
structure Candle where
  o : ℚ
  h : ℚ
  l : ℚ
  c : ℚ
  volume : ℚ
deriving DecidableEq

/-- The dict returned by `candle_metrics_from_kline`. -/
structure CandleMetrics where
  o : ℚ
  h : ℚ
  l : ℚ
  c : ℚ
  range : ℚ
  body : ℚ
  wick : ℚ
  wick_ratio : ℚ
  green : Bool
  red : Bool
deriving DecidableEq

/-- One hysteresis-smoothed bias track: the triple of dict keys
p_bias, p_bias_pending, p_bias_pending_count for a track p,
with the read defaults NEUTRAL / None / 0 made explicit initial values. -/
structure BiasTrack where
  bias : Bias
  pending : Option Bias
  pendingCount : ℕ
deriving DecidableEq

/-- The persisted `meta_state.json` dict. Keys that the code pops
(`glitch_start_utc`, `glitch_direction`, `glitch_confirmed`) are `Option`
fields where `none` means the key is absent; `capitulation_recent` is read
with default False, so a plain Bool with `false` for the absent key is
observationally identical. -/
structure MetaState where
  glitch_start : Option ℤ
  glitch_direction : Option GlitchDir
  glitch_confirmed : Option Bool
  capitulation_recent : Bool
  btcTrack : BiasTrack
  mktTrack : BiasTrack
deriving DecidableEq

/-- The MetaState corresponding to loading an empty/missing JSON file. -/
def emptyMeta : MetaState :=
  { glitch_start := none
    glitch_direction := none
    glitch_confirmed := none
    capitulation_recent := false
    btcTrack := { bias := .NEUTRAL, pending := none, pendingCount := 0 }
    mktTrack := { bias := .NEUTRAL, pending := none, pendingCount := 0 } }

/-! ### Feature engine (src lines 132-215) -/

def get_trend (klines : List Candle) : Trend :=
  if klines.length < 15 then .RANGE
  else
    let closes := klines.map (·.c)
    let n := closes.length
    let c1 := closes.getD (n - 1) 0
    let c5 := closes.getD (n - 5) 0
    let c10 := closes.getD (n - 10) 0
    if c1 > c5 ∧ c5 > c10 then .UP
    else if c1 < c5 ∧ c5 < c10 then .DOWN
    else .RANGE

def get_regime (trend : Trend) : Regime :=
  match trend with
  | .UP => .BULL_MODE
  | .DOWN => .BEAR_MODE
  | .RANGE => .CHOP_MODE

def get_volume_ratio (klines : List Candle) : ℚ :=
  if klines.length < 25 then 1
  else
    let vols := klines.map (·.volume)
    let n := vols.length
    let avg_20 := ((vols.drop (n - 21)).take 20).sum / 20
    if avg_20 ≤ 0 then 1
    else vols.getD (n - 1) 0 / avg_20

def get_recent_change_pct (klines : List Candle) (days : ℕ) : ℚ :=
  if klines.length < days + 1 then 0
  else
    let closes := klines.map (·.c)
    let n := closes.length
    let old := closes.getD (n - (days + 1)) 0
    let new := closes.getD (n - 1) 0
    if old = 0 then 0
    else ((new - old) / old) * 100

def candle_metrics_from_kline (k : Candle) : CandleMetrics :=
  let body := |k.c - k.o|
  let rng := max (1/1000000000) (k.h - k.l)
  let wick := rng - body
  { o := k.o
    h := k.h
    l := k.l
    c := k.c
    range := rng
    body := body
    wick := wick
    wick_ratio := wick / rng
    green := decide (k.c ≥ k.o)
    red := decide (k.c < k.o) }

def get_range_multiplier (klines : List Candle) (lookback : ℕ) : ℚ :=
  if klines.length < lookback + 2 then 1
  else
    let n := klines.length
    let ranges := ((klines.drop (n - (lookback + 1))).take lookback).map
      (fun k => (candle_metrics_from_kline k).range)
    let avg_range := ranges.sum / (ranges.length : ℚ)
    let last_range := match klines.getLast? with
      | some k => (candle_metrics_from_kline k).range
      | none => 0
    if avg_range ≤ 0 then 1
    else last_range / avg_range

/-! ### Glitch window machine (src lines 242-300) -/

def glitch_watch_active (meta : MetaState) (now : ℤ) : Bool :=
  match meta.glitch_start with
  | none => false
  | some start => decide (now ≤ start + GLITCH_DAYS * secondsPerDay)

def start_glitch_watch (meta : MetaState) (direction : GlitchDir) (now : ℤ) : MetaState :=
  { meta with glitch_start := some now, glitch_direction := some direction }

def stop_glitch (meta : MetaState) : MetaState :=
  { meta with glitch_start := none, glitch_direction := none, glitch_confirmed := none }

def get_glitch_direction (meta : MetaState) : GlitchDir :=
  meta.glitch_direction.getD .UNKNOWN

def confirm_glitch_if_needed (meta : MetaState) (regime : Regime)
    (last_candle : CandleMetrics) (range_mult : ℚ) (now : ℤ) : MetaState :=
  if glitch_watch_active meta now = false then
    { meta with glitch_confirmed := some false }
  else
    let direction := get_glitch_direction meta
    let wr := last_candle.wick_ratio
    if (direction = .BEAR_GLITCH ∧ (regime = .BEAR_MODE ∨ regime = .CHOP_MODE)
          ∧ last_candle.green = true ∧ wr ≥ WICK_RATIO_CONFIRM)
        ∨ (direction = .BULL_GLITCH ∧ regime = .BULL_MODE
          ∧ last_candle.red = true ∧ wr ≥ WICK_RATIO_CONFIRM)
        ∨ range_mult ≥ RANGE_SPIKE_MULT then
      { meta with glitch_confirmed := some true }
    else
      { meta with glitch_confirmed := some false }

/-- The source function reading the glitch_confirmed key with default False. -/
def glitch_confirmed_flag (meta : MetaState) : Bool :=
  meta.glitch_confirmed.getD false

/-! ### Scores (src lines 305-367) -/

def compute_confidence (trend : Trend) (fear : ℤ) (funding volume_ratio : ℚ)
    (retail_flag : Bool) : ℤ :=
  let s0 : ℤ := 0
  let s1 := s0 + (if trend = .UP then 25 else if trend = .RANGE then 10 else 0)
  let s2 := s1 + (if FEAR_DEEP ≤ fear ∧ fear ≤ 55 then 20 else 5)
  let s3 := s2 + (if volume_ratio > VOLUME_START then 20
                  else if volume_ratio > VOLUME_PRESTART then 10 else 0)
  let s4 := s3 + (if funding < FUNDING_RETAIL then 20
                  else if funding < FUNDING_EUPHORIA then 10 else 0)
  let s5 := s4 + (if retail_flag then -25 else 0)
  max 0 (min s5 100)

/-- The unclamped accumulation inside `compute_health`. -/
def compute_health_raw (regime : Regime) (fear : ℤ) (funding : ℚ)
    (capitulation_risk retail_flag absorption glitch_conf : Bool)
    (g_dir : GlitchDir) : ℤ :=
  let s0 : ℤ := 50
  let s1 := s0 + (if retail_flag then -20 else 0)
  let s2 := s1 + (if capitulation_risk then -25 else 0)
  let s3 := s2 + (if glitch_conf then
                    (if g_dir = .BEAR_GLITCH then -18
                     else if g_dir = .BULL_GLITCH then -8 else -12)
                  else 0)
  let s4 := s3 + (if funding < 0 then 10
                  else if funding < FUNDING_RETAIL then 5 else 0)
  let s5 := s4 + (if absorption then 20 else 0)
  let s6 := s5 + (if fear < FEAR_DEEP then -5 else 0)
  s6 + (if regime = .BEAR_MODE ∧ absorption = false then -7
        else if regime = .BULL_MODE ∧ retail_flag = false then 5 else 0)

def compute_health (regime : Regime) (fear : ℤ) (funding : ℚ)
    (capitulation_risk retail_flag absorption glitch_conf : Bool)
    (g_dir : GlitchDir) : ℤ :=
  max 0 (min (compute_health_raw regime fear funding capitulation_risk
    retail_flag absorption glitch_conf g_dir) 100)

/-! ### Bias scoring and hysteresis (src lines 372-478) -/

def compute_btc_bias_score (trend : Trend) (fear : ℤ)
    (funding volume_ratio change_5d : ℚ) : ℤ :=
  let s0 : ℤ := 50
  let s1 := s0 + (if trend = .UP then 20 else if trend = .DOWN then -20 else 0)
  let s2 := s1 + (if 35 ≤ fear ∧ fear ≤ 65 then 15
                  else if fear < FEAR_DEEP then -10
                  else if fear > FEAR_EUPHORIA then -10 else 0)
  let s3 := s2 + (if funding < 0 then 10
                  else if funding < FUNDING_RETAIL then 5
                  else if funding > FUNDING_EUPHORIA then -15 else 0)
  let s4 := s3 + (if VOLUME_PRESTART ≤ volume_ratio ∧ volume_ratio ≤ 19/10 then 10
                  else if volume_ratio > VOLUME_RETAIL then -10 else 0)
  let s5 := s4 + (if change_5d > 2 then 5 else if change_5d < -2 then -5 else 0)
  max 0 (min s5 100)

def bias_from_score (score : ℤ) : Bias :=
  if score ≥ BIAS_BULL_SCORE then .BULLISH
  else if score ≤ BIAS_BEAR_SCORE then .BEARISH
  else .NEUTRAL

/-- The hysteresis update acting on one track; the Python version
dispatches on a string key to pick the track, which is the record
field selection here. -/
def update_bias_with_hysteresis (t : BiasTrack) (next_bias : Bias) : BiasTrack :=
  if next_bias = t.bias then
    { t with pending := none, pendingCount := 0 }
  else
    let t1 := if t.pending ≠ some next_bias then
        { t with pending := some next_bias, pendingCount := 1 }
      else
        { t with pendingCount := t.pendingCount + 1 }
    if t1.pendingCount ≥ BIAS_HYSTERESIS_RUNS then
      { bias := next_bias, pending := none, pendingCount := 0 }
    else t1

def compute_market_bias_score (mcap_change btc_dom : Option ℚ) : ℤ :=
  let s0 : ℤ := 50
  let s1 := s0 + (match mcap_change with
    | some m => if m > 2 then 20
                else if m > 1/2 then 10
                else if m < -2 then -20
                else if m < -1/2 then -10 else 0
    | none => 0)
  let s2 := s1 + (match btc_dom with
    | some d => if d > 55 then -5 else if d < 50 then 5 else 0
    | none => 0)
  max 0 (min s2 100)

def interpret_bias (btc_bias mkt_bias : Bias) : String :=
  if btc_bias = .BULLISH ∧ mkt_bias = .BULLISH then
    "FULL RISK-ON (broad market participation)"
  else if btc_bias = .BULLISH ∧ mkt_bias ≠ .BULLISH then
    "BTC-LED RALLY (early cycle / defensive risk-on)"
  else if btc_bias ≠ .BULLISH ∧ mkt_bias = .BULLISH then
    "ALT RISK-ON (speculative rotation risk)"
  else if btc_bias = .BEARISH ∧ mkt_bias = .BEARISH then
    "FULL RISK-OFF"
  else "MIXED / UNCLEAR"

/-! ### State classifier (the if/elif chain at src lines 598-617) -/

def classify_state (capitulation_risk absorption g_watch g_conf
    bear_lag_window bull_lag_window retail_entry : Bool)
    (fear : ℤ) (funding volume_ratio : ℚ) (trend : Trend) : StateLabel :=
  if capitulation_risk then .CAPITULATION_RISK
  else if absorption then .ABSORPTION_DETECTED
  else if g_watch && g_conf then .GLITCH_WINDOW_ACTIVE
  else if bear_lag_window || bull_lag_window then .LAG_WINDOW_ACTIVE
  else if fear < FEAR_DEEP ∧ funding ≤ 0 then .DEEP_FEAR
  else if retail_entry then .LIQUIDITY_TRAP
  else if trend = .UP ∧ volume_ratio > VOLUME_START ∧ funding < FUNDING_RETAIL then
    .START_CONFIRMED
  else if trend = .UP ∧ volume_ratio > VOLUME_PRESTART then .PRE_START
  else if fear > FEAR_EUPHORIA ∧ funding ≥ FUNDING_EUPHORIA then .EUPHORIA
  else .NEUTRAL

/-- The priority list of labels exactly as the specification section 4.3
orders them (first entry wins). -/
def spec_stateOrder : List StateLabel :=
  [.CAPITULATION_RISK, .ABSORPTION_DETECTED, .GLITCH_WINDOW_ACTIVE,
   .LAG_WINDOW_ACTIVE, .DEEP_FEAR, .LIQUIDITY_TRAP, .START_CONFIRMED,
   .PRE_START, .EUPHORIA, .NEUTRAL]

/-- The per-label firing condition exactly as the specification section 4.3
words it (NEUTRAL is the unconditional default). -/
def spec_stateCond (lbl : StateLabel) (capitulation_risk absorption g_watch g_conf
    bear_lag_window bull_lag_window retail_entry : Bool)
    (fear : ℤ) (funding volume_ratio : ℚ) (trend : Trend) : Bool :=
  match lbl with
  | .CAPITULATION_RISK => capitulation_risk
  | .ABSORPTION_DETECTED => absorption
  | .GLITCH_WINDOW_ACTIVE => g_watch && g_conf
  | .LAG_WINDOW_ACTIVE => bear_lag_window || bull_lag_window
  | .DEEP_FEAR => decide (fear < FEAR_DEEP ∧ funding ≤ 0)
  | .LIQUIDITY_TRAP => retail_entry
  | .START_CONFIRMED =>
      decide (trend = .UP ∧ volume_ratio > VOLUME_START ∧ funding < FUNDING_RETAIL)
  | .PRE_START => decide (trend = .UP ∧ volume_ratio > VOLUME_PRESTART)
  | .EUPHORIA => decide (fear > FEAR_EUPHORIA ∧ funding ≥ FUNDING_EUPHORIA)
  | .NEUTRAL => true

/-! ### One full detection cycle (src lines 497-649) -/

/-- The watch-opening block of `detect_market_state` (src lines 541-548). -/
def open_watch_step (meta : MetaState) (now : ℤ) (high_risk : Bool)
    (regime : Regime) (bear_lag_window capitulation_risk : Bool) : MetaState :=
  if high_risk = true ∧ glitch_watch_active meta now = false then
    if regime = .BEAR_MODE ∨ bear_lag_window = true ∨ capitulation_risk = true then
      start_glitch_watch meta .BEAR_GLITCH now
    else if regime = .BULL_MODE then
      start_glitch_watch meta .BULL_GLITCH now
    else
      start_glitch_watch meta .BEAR_GLITCH now
  else meta

/-- The full observation dict returned by `detect_market_state`. -/
structure Result where
  state : StateLabel
  regime : Regime
  trend : Trend
  confidence : ℤ
  health : ℤ
  fear : ℤ
  funding : ℚ
  volume_ratio : ℚ
  change_5d : ℚ
  glitch_watch : Bool
  glitch_confirmed : Bool
  glitch_direction : GlitchDir
  wick_ratio : ℚ
  range_mult : ℚ
  btc_bias_score : ℤ
  btc_bias_instant : Bias
  btc_bias_confirmed : Bias
  mkt_bias_score : ℤ
  mkt_bias_instant : Bias
  mkt_bias_confirmed : Bias
  bias_mode : String
  cg_mcap_change_24h : Option ℚ
  cg_btc_dominance : Option ℚ
deriving DecidableEq

/-- The body of `detect_market_state` after the network fetches and feature
extraction: a pure function of the fetched values, the extracted features,
the current time and the loaded MetaState, returning the observation and
the persisted MetaState. -/
def detect_core (fear : ℤ) (funding : ℚ) (trend : Trend)
    (volume_ratio change_5d : ℚ) (last_candle : CandleMetrics)
    (range_mult : ℚ) (cg_mcap cg_dom : Option ℚ) (now : ℤ)
    (meta0 : MetaState) : Result × MetaState :=
  let regime := get_regime trend
  let retail_entry := decide (funding ≥ FUNDING_RETAIL ∧ volume_ratio ≥ VOLUME_RETAIL)
  let capitulation_risk := decide (fear < FEAR_DEEP ∧ volume_ratio ≥ VOLUME_CAPITULATION
    ∧ (trend = .DOWN ∨ trend = .RANGE) ∧ change_5d < -3)
  let bear_lag_window := decide (fear < FEAR_DEEP ∧ funding ≤ FUNDING_RETAIL
    ∧ (trend = .DOWN ∨ trend = .RANGE)) && !capitulation_risk
  let bull_lag_window := decide (regime = .BULL_MODE ∧ funding < FUNDING_RETAIL
    ∧ fear < FEAR_EUPHORIA ∧ change_5d < 1)
  let high_risk := capitulation_risk || bear_lag_window || bull_lag_window || retail_entry
  let meta1 := open_watch_step meta0 now high_risk regime bear_lag_window capitulation_risk
  let meta2 := confirm_glitch_if_needed meta1 regime last_candle range_mult now
  let prev_capitulation := meta2.capitulation_recent
  let meta3 := if capitulation_risk then { meta2 with capitulation_recent := true } else meta2
  let absorption := prev_capitulation && decide (volume_ratio ≤ VOLUME_NORMAL
    ∧ funding < FUNDING_RETAIL ∧ (trend = .RANGE ∨ trend = .UP))
  let meta4 := if absorption then stop_glitch { meta3 with capitulation_recent := false }
    else meta3
  let btc_bias_score := compute_btc_bias_score trend fear funding volume_ratio change_5d
  let btc_bias_instant := bias_from_score btc_bias_score
  let meta5 := { meta4 with btcTrack := update_bias_with_hysteresis meta4.btcTrack btc_bias_instant }
  let btc_bias_confirmed := meta5.btcTrack.bias
  let mkt_bias_score := compute_market_bias_score cg_mcap cg_dom
  let mkt_bias_instant := bias_from_score mkt_bias_score
  let meta6 := { meta5 with mktTrack := update_bias_with_hysteresis meta5.mktTrack mkt_bias_instant }
  let mkt_bias_confirmed := meta6.mktTrack.bias
  let bias_mode := interpret_bias btc_bias_confirmed mkt_bias_confirmed
  let g_watch := glitch_watch_active meta6 now
  let g_conf := glitch_confirmed_flag meta6
  let g_dir := get_glitch_direction meta6
  let confidence := compute_confidence trend fear funding volume_ratio retail_entry
  let health := compute_health regime fear funding capitulation_risk retail_entry
    absorption g_conf g_dir
  let state := classify_state capitulation_risk absorption g_watch g_conf
    bear_lag_window bull_lag_window retail_entry fear funding volume_ratio trend
  ({ state := state
     regime := regime
     trend := trend
     confidence := confidence
     health := health
     fear := fear
     funding := funding
     volume_ratio := volume_ratio
     change_5d := change_5d
     glitch_watch := g_watch
     glitch_confirmed := g_conf
     glitch_direction := g_dir
     wick_ratio := last_candle.wick_ratio
     range_mult := range_mult
     btc_bias_score := btc_bias_score
     btc_bias_instant := btc_bias_instant
     btc_bias_confirmed := btc_bias_confirmed
     mkt_bias_score := mkt_bias_score
     mkt_bias_instant := mkt_bias_instant
     mkt_bias_confirmed := mkt_bias_confirmed
     bias_mode := bias_mode
     cg_mcap_change_24h := cg_mcap
     cg_btc_dominance := cg_dom }, meta6)

/-- The fallback dict used for `last_candle` when the kline list is empty. -/
def emptyCandleMetrics : CandleMetrics :=
  { o := 0, h := 0, l := 0, c := 0, range := 0, body := 0, wick := 0
    wick_ratio := 0, green := false, red := false }

/-- The full detection cycle with the fetched inputs made explicit arguments:
feature extraction composed with `detect_core`. -/
def detect_market_state (fear : ℤ) (funding : ℚ) (klines : List Candle)
    (cg_mcap cg_dom : Option ℚ) (now : ℤ) (meta : MetaState) : Result × MetaState :=
  let trend := get_trend klines
  let volume_ratio := get_volume_ratio klines
  let change_5d := get_recent_change_pct klines 5
  let last_candle := match klines.getLast? with
    | some k => candle_metrics_from_kline k
    | none => emptyCandleMetrics
  let range_mult := get_range_multiplier klines 20
  detect_core fear funding trend volume_ratio change_5d last_candle range_mult
    cg_mcap cg_dom now meta

/-! ### Alert engine (src lines 669-699, 764-782) -/

/-- The persisted `last_snapshot.json`: the observation plus the
heartbeat-day marker appended by `main` before saving. Calendar days are
abstract integer day stamps. -/
structure Snapshot where
  r : Result
  heartbeat_day : ℤ
deriving DecidableEq

def should_notify (current : Result) (last : Option Snapshot) (today : ℤ) : Bool :=
  match last with
  | none => true
  | some l =>
    if l.r.state ≠ current.state then true
    else if l.r.regime ≠ current.regime then true
    else if l.r.glitch_confirmed ≠ current.glitch_confirmed then true
    else if |l.r.confidence - current.confidence| ≥ CONFIDENCE_DELTA_ALERT then true
    else if |l.r.health - current.health| ≥ HEALTH_DELTA_ALERT then true
    else if |l.r.btc_bias_score - current.btc_bias_score| ≥ BIAS_SCORE_DELTA_ALERT then true
    else if |l.r.mkt_bias_score - current.mkt_bias_score| ≥ BIAS_SCORE_DELTA_ALERT then true
    else if l.heartbeat_day ≠ today then true
    else false

/-- The state-relevant tail of `main`: decide notification, then persist the
snapshot stamped with today regardless of whether a notification fired. -/
def main_step (current : Result) (last : Option Snapshot) (today : ℤ) :
    Bool × Snapshot :=
  (should_notify current last today, { r := current, heartbeat_day := today })

/-- A sequence of invocations on one calendar day whose computed observation
is frozen (identical every cycle); returns the list of notify decisions. -/
def run_frozen (current : Result) (d : ℤ) : Option Snapshot → ℕ → List Bool
  | _, 0 => []
  | last, n + 1 =>
    let stepped := main_step current last d
    stepped.1 :: run_frozen current d (some stepped.2) n

/-- A concrete observation record used to instantiate universally
quantified theorems at a specific input. -/
def sampleResult : Result :=
  { state := .NEUTRAL
    regime := .CHOP_MODE
    trend := .RANGE
    confidence := 35
    health := 55
    fear := 50
    funding := 1/100
    volume_ratio := 1
    change_5d := 0
    glitch_watch := false
    glitch_confirmed := false
    glitch_direction := .UNKNOWN
    wick_ratio := 1/2
    range_mult := 1
    btc_bias_score := 50
    btc_bias_instant := .NEUTRAL
    btc_bias_confirmed := .NEUTRAL
    mkt_bias_score := 50
    mkt_bias_instant := .NEUTRAL
    mkt_bias_confirmed := .NEUTRAL
    bias_mode := "MIXED / UNCLEAR"
    cg_mcap_change_24h := none
    cg_btc_dominance := none }

/-- A concrete persisted state with the sticky capitulation flag set and a
watch open with all three glitch keys present, used to instantiate
universally quantified theorems at a specific input. -/
def capitulatedMeta : MetaState :=
  { emptyMeta with
    capitulation_recent := true
    glitch_start := some 0
    glitch_direction := some .BEAR_GLITCH
    glitch_confirmed := some true }

/-! ### Helper lemmas -/

/-- The confirmation step writes only the glitch_confirmed key. -/
theorem confirm_glitch_preserves (meta : MetaState) (regime : Regime)
    (last_candle : CandleMetrics) (range_mult : ℚ) (now : ℤ) :
    (confirm_glitch_if_needed meta regime last_candle range_mult now).glitch_start
        = meta.glitch_start
    ∧ (confirm_glitch_if_needed meta regime last_candle range_mult now).glitch_direction
        = meta.glitch_direction
    ∧ (confirm_glitch_if_needed meta regime last_candle range_mult now).capitulation_recent
        = meta.capitulation_recent
    ∧ (confirm_glitch_if_needed meta regime last_candle range_mult now).btcTrack
        = meta.btcTrack
    ∧ (confirm_glitch_if_needed meta regime last_candle range_mult now).mktTrack
        = meta.mktTrack := by
  simp only [confirm_glitch_if_needed]
  split_ifs <;> simp

/-- The watch-opening step writes only the watch start and direction keys. -/
theorem open_watch_step_preserves (meta : MetaState) (now : ℤ) (high_risk : Bool)
    (regime : Regime) (bear_lag_window capitulation_risk : Bool) :
    (open_watch_step meta now high_risk regime bear_lag_window capitulation_risk).glitch_confirmed
        = meta.glitch_confirmed
    ∧ (open_watch_step meta now high_risk regime bear_lag_window capitulation_risk).capitulation_recent
        = meta.capitulation_recent
    ∧ (open_watch_step meta now high_risk regime bear_lag_window capitulation_risk).btcTrack
        = meta.btcTrack
    ∧ (open_watch_step meta now high_risk regime bear_lag_window capitulation_risk).mktTrack
        = meta.mktTrack := by
  simp only [open_watch_step, start_glitch_watch]
  split_ifs <;> simp

/-! ### Claims -/

/-- Claim C1: the regime label emitted by one invocation is determined by a
strict first-match priority list over the ten labels in the stated order.
`classify_state` is the if/elif chain from the source; `spec_stateOrder`
and `spec_stateCond` restate the priority list from the specification.
The theorem shows the chain always returns the first label (scanning in
priority order) whose condition holds, with NEUTRAL as the unconditional
default; that exactly one label results and that identical inputs give the
identical label is inherent in `classify_state` being a total function of
its arguments. -/
theorem classify_state_first_match (capitulation_risk absorption g_watch g_conf
    bear_lag_window bull_lag_window retail_entry : Bool)
    (fear : ℤ) (funding volume_ratio : ℚ) (trend : Trend) :
    spec_stateOrder.find? (fun lbl => spec_stateCond lbl capitulation_risk absorption
        g_watch g_conf bear_lag_window bull_lag_window retail_entry
        fear funding volume_ratio trend)
      = some (classify_state capitulation_risk absorption g_watch g_conf
          bear_lag_window bull_lag_window retail_entry
          fear funding volume_ratio trend) := by
  unfold classify_state spec_stateOrder spec_stateCond
  by_cases h1 : capitulation_risk = true
  · simp [List.find?, h1]
  by_cases h2 : absorption = true
  · simp [List.find?, h1, h2]
  by_cases h3 : (g_watch && g_conf) = true
  · simp [List.find?, h1, h2, h3]
  by_cases h4 : (bear_lag_window || bull_lag_window) = true
  · simp [List.find?, h1, h2, h3, h4]
  by_cases h5 : fear < FEAR_DEEP ∧ funding ≤ 0
  · simp [List.find?, h1, h2, h3, h4, h5]
  by_cases h6 : retail_entry = true
  · simp [List.find?, h1, h2, h3, h4, h5, h6]
  by_cases h7 : trend = Trend.UP ∧ volume_ratio > VOLUME_START ∧ funding < FUNDING_RETAIL
  · simp [List.find?, h1, h2, h3, h4, h5, h6, h7]
  by_cases h8 : trend = Trend.UP ∧ volume_ratio > VOLUME_PRESTART
  · by_cases hvs : volume_ratio > VOLUME_START
    · by_cases hfr : funding < FUNDING_RETAIL
      · exact absurd ⟨h8.1, hvs, hfr⟩ h7
      · simp [List.find?, h1, h2, h3, h4, h5, h6, h8, hvs, hfr]
    · simp [List.find?, h1, h2, h3, h4, h5, h6, h8, hvs]
  by_cases h9 : fear > FEAR_EUPHORIA ∧ funding ≥ FUNDING_EUPHORIA
  · simp [List.find?, h1, h2, h3, h4, h5, h6, h7, h8, h9]
  simp [List.find?, h1, h2, h3, h4, h5, h6, h7, h8, h9]

/-- Claim C2: a glitch watch opened at timestamp T is reported open for
every query time t with T ≤ t ≤ T + 4 days (boundary inclusive) and closed
for every t past the boundary, independent of the confirmation flag; the
closure is purely a property of the query time (no explicit close action is
read), and while the watch is open the opening step leaves the start
timestamp and direction untouched. -/
theorem glitch_watch_window (meta : MetaState) (T t : ℤ)
    (hstart : meta.glitch_start = some T) :
    (T ≤ t → t ≤ T + GLITCH_DAYS * secondsPerDay →
      glitch_watch_active meta t = true)
    ∧ (T + GLITCH_DAYS * secondsPerDay < t →
      glitch_watch_active meta t = false)
    ∧ (∀ b : Option Bool,
      glitch_watch_active { meta with glitch_confirmed := b } t
        = glitch_watch_active meta t)
    ∧ (∀ (high_risk bear_lag_window capitulation_risk : Bool) (regime : Regime),
      glitch_watch_active meta t = true →
      open_watch_step meta t high_risk regime bear_lag_window capitulation_risk = meta) := by
  refine ⟨?_, ?_, ?_, ?_⟩
  · intro _ hle
    simp [glitch_watch_active, hstart, hle]
  · intro hgt
    simp [glitch_watch_active, hstart]
    omega
  · intro b
    simp [glitch_watch_active]
  · intro high_risk bear_lag_window capitulation_risk regime hactive
    simp [open_watch_step, hactive]

/-- Witness for C2 at a concrete watch opened at T = 0: the watch is open
at the boundary instant 4 days later, closed one second after, unaffected
by the confirmation field, and not re-opened while open. -/
theorem glitch_watch_window_witness :
    glitch_watch_active { emptyMeta with glitch_start := some 0 } 345600 = true
    ∧ glitch_watch_active { emptyMeta with glitch_start := some 0 } 345601 = false
    ∧ glitch_watch_active
        { emptyMeta with glitch_start := some 0, glitch_confirmed := some true } 0
        = glitch_watch_active { emptyMeta with glitch_start := some 0 } 0
    ∧ open_watch_step { emptyMeta with glitch_start := some 0 } 0 true
        Regime.BEAR_MODE false false
      = { emptyMeta with glitch_start := some 0 } := by
  have h := glitch_watch_window { emptyMeta with glitch_start := some 0 } 0 345600 rfl
  have h1 := h.1 (by norm_num) (by norm_num [GLITCH_DAYS, secondsPerDay])
  have h' := glitch_watch_window { emptyMeta with glitch_start := some 0 } 0 345601 rfl
  have h2 := h'.2.1 (by norm_num [GLITCH_DAYS, secondsPerDay])
  have hz := glitch_watch_window { emptyMeta with glitch_start := some 0 } 0 0 rfl
  have h3 := hz.2.2.1 (some true)
  have h4 := hz.2.2.2 true false false Regime.BEAR_MODE
    (hz.1 le_rfl (by norm_num [GLITCH_DAYS, secondsPerDay]))
  exact ⟨h1, h2, h3, h4⟩

/-- Claim C3: per bias track, the confirmed bias flips from A to B only
after B has been the instant bias for `BIAS_HYSTERESIS_RUNS` = 2
consecutive cycles with no different intervening instant value. The four
listed behaviors, in order of the conjuncts: a cycle whose instant equals
the confirmed bias clears the pending transition; a cycle whose instant
equals the pending target increments the count (flipping once the count
reaches 2); a cycle proposing a different target resets pending to it with
count 1 (and cannot flip, since 1 < 2); a flip in one cycle requires the
incoming instant to equal the already-pending target with count at least 1;
and across two consecutive cycles a flip at the second cycle forces the two
instant values to be equal (no intervening different value). -/
theorem hysteresis_flip (t : BiasTrack) (next_bias b1 b2 : Bias) :
    (next_bias = t.bias →
      update_bias_with_hysteresis t next_bias
        = { t with pending := none, pendingCount := 0 })
    ∧ (next_bias ≠ t.bias → t.pending = some next_bias →
      update_bias_with_hysteresis t next_bias
        = if t.pendingCount + 1 ≥ BIAS_HYSTERESIS_RUNS then
            { bias := next_bias, pending := none, pendingCount := 0 }
          else { t with pendingCount := t.pendingCount + 1 })
    ∧ (next_bias ≠ t.bias → t.pending ≠ some next_bias →
      update_bias_with_hysteresis t next_bias
        = { t with pending := some next_bias, pendingCount := 1 })
    ∧ ((update_bias_with_hysteresis t next_bias).bias ≠ t.bias →
      (update_bias_with_hysteresis t next_bias).bias = next_bias
        ∧ t.pending = some next_bias ∧ 1 ≤ t.pendingCount)
    ∧ ((update_bias_with_hysteresis
          (update_bias_with_hysteresis t b1) b2).bias
        ≠ (update_bias_with_hysteresis t b1).bias →
      b2 = b1 ∧ (update_bias_with_hysteresis
          (update_bias_with_hysteresis t b1) b2).bias = b2) := by
  have clear : ∀ (s : BiasTrack) (b : Bias), b = s.bias →
      update_bias_with_hysteresis s b
        = { s with pending := none, pendingCount := 0 } := by
    intro s b hEq
    simp [update_bias_with_hysteresis, hEq]
  have step2 : ∀ (s : BiasTrack) (b : Bias), b ≠ s.bias → s.pending = some b →
      update_bias_with_hysteresis s b
        = if s.pendingCount + 1 ≥ BIAS_HYSTERESIS_RUNS then
            { bias := b, pending := none, pendingCount := 0 }
          else { s with pendingCount := s.pendingCount + 1 } := by
    intro s b hNe hPend
    simp [update_bias_with_hysteresis, hNe, hPend]
  have reset : ∀ (s : BiasTrack) (b : Bias), b ≠ s.bias → s.pending ≠ some b →
      update_bias_with_hysteresis s b
        = { s with pending := some b, pendingCount := 1 } := by
    intro s b hNe hPend
    simp [update_bias_with_hysteresis, BIAS_HYSTERESIS_RUNS, hNe, hPend]
  have flip : ∀ (s : BiasTrack) (b : Bias),
      (update_bias_with_hysteresis s b).bias ≠ s.bias →
      (update_bias_with_hysteresis s b).bias = b
        ∧ s.pending = some b ∧ 1 ≤ s.pendingCount := by
    intro s b hne
    by_cases hEq : b = s.bias
    · rw [clear s b hEq] at hne
      simp at hne
    · by_cases hPend : s.pending = some b
      · rw [step2 s b hEq hPend] at hne ⊢
        by_cases hRun : s.pendingCount + 1 ≥ BIAS_HYSTERESIS_RUNS
        · rw [if_pos hRun] at hne ⊢
          exact ⟨rfl, hPend, by simp [BIAS_HYSTERESIS_RUNS] at hRun; omega⟩
        · rw [if_neg hRun] at hne
          simp at hne
      · rw [reset s b hEq hPend] at hne
        simp at hne
  refine ⟨clear t next_bias, step2 t next_bias, reset t next_bias,
    flip t next_bias, ?_⟩
  intro hflip
  have h := flip _ b2 hflip
  have hp : (update_bias_with_hysteresis t b1).pending = none
      ∨ (update_bias_with_hysteresis t b1).pending = some b1 := by
    by_cases hEq : b1 = t.bias
    · rw [clear t b1 hEq]
      simp
    · by_cases hPend : t.pending = some b1
      · rw [step2 t b1 hEq hPend]
        split_ifs <;> simp [hPend]
      · rw [reset t b1 hEq hPend]
        simp
  rcases hp with hp | hp
  · rw [hp] at h
    exact absurd h.2.1 (by simp)
  · rw [hp] at h
    exact ⟨(Option.some_inj.mp h.2.1).symm, h.1⟩

/-- Witness for C3: from confirmed NEUTRAL, two consecutive BULLISH instant
cycles flip the confirmed bias to BULLISH, the first cycle only arming the
pending counter. -/
theorem hysteresis_flip_witness :
    update_bias_with_hysteresis
        { bias := .NEUTRAL, pending := none, pendingCount := 0 } .BULLISH
      = { bias := .NEUTRAL, pending := some .BULLISH, pendingCount := 1 }
    ∧ update_bias_with_hysteresis
        { bias := .NEUTRAL, pending := some .BULLISH, pendingCount := 1 } .BULLISH
      = { bias := .BULLISH, pending := none, pendingCount := 0 } := by
  have h1 := (hysteresis_flip
    { bias := .NEUTRAL, pending := none, pendingCount := 0 }
    .BULLISH .BULLISH .BULLISH).2.2.1 (by decide) (by decide)
  have h2 := (hysteresis_flip
    { bias := .NEUTRAL, pending := some .BULLISH, pendingCount := 1 }
    .BULLISH .BULLISH .BULLISH).2.1 (by decide) rfl
  refine ⟨h1, ?_⟩
  rw [h2]
  decide

/-- Claim C4: with fear 20, funding 0, trend DOWN, volume ratio 2.5 and
5-day change -4 percent, the capitulation-risk condition holds, the cycle
emits CAPITULATION_RISK, and — when no watch is already open — a glitch
watch is opened at the current time with direction BEAR_GLITCH. -/
theorem capitulation_scenario (meta : MetaState) (now : ℤ)
    (last_candle : CandleMetrics) (range_mult : ℚ) (cg_mcap cg_dom : Option ℚ)
    (hwatch : glitch_watch_active meta now = false) :
    (detect_core 20 0 .DOWN (5/2) (-4) last_candle range_mult
        cg_mcap cg_dom now meta).1.state = .CAPITULATION_RISK
    ∧ (detect_core 20 0 .DOWN (5/2) (-4) last_candle range_mult
        cg_mcap cg_dom now meta).2.glitch_start = some now
    ∧ (detect_core 20 0 .DOWN (5/2) (-4) last_candle range_mult
        cg_mcap cg_dom now meta).2.glitch_direction = some .BEAR_GLITCH
    ∧ (detect_core 20 0 .DOWN (5/2) (-4) last_candle range_mult
        cg_mcap cg_dom now meta).1.glitch_watch = true
    ∧ (detect_core 20 0 .DOWN (5/2) (-4) last_candle range_mult
        cg_mcap cg_dom now meta).1.glitch_direction = .BEAR_GLITCH := by
  simp only [detect_core, open_watch_step, get_regime]
  norm_num [FEAR_DEEP, VOLUME_CAPITULATION, VOLUME_NORMAL, FUNDING_RETAIL,
    FEAR_EUPHORIA, hwatch, start_glitch_watch, confirm_glitch_preserves,
    get_glitch_direction, glitch_confirmed_flag, classify_state]
  simp [glitch_watch_active, GLITCH_DAYS, secondsPerDay]

/-- Witness for C4 at a fully concrete cycle: empty persisted state (no
watch open), time 0. -/
theorem capitulation_scenario_witness :
    (detect_core 20 0 .DOWN (5/2) (-4) emptyCandleMetrics 1 none none 0
        emptyMeta).1.state = .CAPITULATION_RISK
    ∧ (detect_core 20 0 .DOWN (5/2) (-4) emptyCandleMetrics 1 none none 0
        emptyMeta).2.glitch_start = some 0
    ∧ (detect_core 20 0 .DOWN (5/2) (-4) emptyCandleMetrics 1 none none 0
        emptyMeta).2.glitch_direction = some .BEAR_GLITCH := by
  have h := capitulation_scenario emptyMeta 0 emptyCandleMetrics 1 none none rfl
  exact ⟨h.1, h.2.1, h.2.2.1⟩

/-- Claim C5: if the previous cycle left the sticky capitulation flag true
and this cycle has volume ratio at/below the normal threshold, funding
below the retail threshold, and trend RANGE or UP, then (the capitulation
condition being impossible simultaneously, since it needs a volume ratio
at/above 2.2 while absorption needs at/most 1.2) the label is
ABSORPTION_DETECTED, the sticky flag is cleared, and the glitch watch is
force-closed: start, direction and confirmation keys are all removed
regardless of elapsed time. -/
theorem absorption_scenario (meta : MetaState) (now fear : ℤ)
    (funding volume_ratio change_5d : ℚ) (trend : Trend)
    (last_candle : CandleMetrics) (range_mult : ℚ) (cg_mcap cg_dom : Option ℚ)
    (hprev : meta.capitulation_recent = true)
    (hvol : volume_ratio ≤ VOLUME_NORMAL)
    (hfund : funding < FUNDING_RETAIL)
    (htrend : trend = .RANGE ∨ trend = .UP) :
    (detect_core fear funding trend volume_ratio change_5d last_candle
        range_mult cg_mcap cg_dom now meta).1.state = .ABSORPTION_DETECTED
    ∧ (detect_core fear funding trend volume_ratio change_5d last_candle
        range_mult cg_mcap cg_dom now meta).2.capitulation_recent = false
    ∧ (detect_core fear funding trend volume_ratio change_5d last_candle
        range_mult cg_mcap cg_dom now meta).2.glitch_start = none
    ∧ (detect_core fear funding trend volume_ratio change_5d last_candle
        range_mult cg_mcap cg_dom now meta).2.glitch_direction = none
    ∧ (detect_core fear funding trend volume_ratio change_5d last_candle
        range_mult cg_mcap cg_dom now meta).2.glitch_confirmed = none := by
  have hnc : ¬(VOLUME_CAPITULATION ≤ volume_ratio) := by
    simp only [VOLUME_CAPITULATION]
    simp only [VOLUME_NORMAL] at hvol
    linarith
  rcases htrend with h | h <;> subst h <;>
  · simp only [detect_core, stop_glitch, get_glitch_direction, glitch_confirmed_flag]
    norm_num [hnc, hprev, hvol, hfund, open_watch_step_preserves,
      confirm_glitch_preserves, classify_state]

/-- Witness for C5 at a fully concrete cycle: sticky capitulation flag set
and a watch open with all three glitch keys present; one absorption cycle
clears everything. -/
theorem absorption_scenario_witness :
    (detect_core 50 0 .RANGE 1 0 emptyCandleMetrics 1 none none 5
        capitulatedMeta).1.state = .ABSORPTION_DETECTED
    ∧ (detect_core 50 0 .RANGE 1 0 emptyCandleMetrics 1 none none 5
        capitulatedMeta).2.capitulation_recent = false
    ∧ (detect_core 50 0 .RANGE 1 0 emptyCandleMetrics 1 none none 5
        capitulatedMeta).2.glitch_start = none := by
  have h := absorption_scenario capitulatedMeta
    5 50 0 1 0 .RANGE emptyCandleMetrics 1 none none rfl
    (by norm_num [VOLUME_NORMAL]) (by norm_num [FUNDING_RETAIL]) (Or.inl rfl)
  exact ⟨h.1, h.2.1, h.2.2.1⟩

/-- Claim C6: the alert decision returns true exactly when at least one of
the listed triggers holds — no previous snapshot (first run), state change,
regime change, confirmed-glitch change, one of the four score deltas at or
above its threshold, or a heartbeat-day marker differing from the current
UTC date. The final conjunct shows no other field matters: rewriting
trend, fear, funding, volume ratio, the glitch-watch flag, or the glitch
direction of the previous snapshot leaves the decision unchanged. -/
theorem should_notify_iff (current : Result) (today : ℤ) :
    (should_notify current none today = true)
    ∧ (∀ l : Snapshot, (should_notify current (some l) today = true ↔
        (l.r.state ≠ current.state
          ∨ l.r.regime ≠ current.regime
          ∨ l.r.glitch_confirmed ≠ current.glitch_confirmed
          ∨ |l.r.confidence - current.confidence| ≥ CONFIDENCE_DELTA_ALERT
          ∨ |l.r.health - current.health| ≥ HEALTH_DELTA_ALERT
          ∨ |l.r.btc_bias_score - current.btc_bias_score| ≥ BIAS_SCORE_DELTA_ALERT
          ∨ |l.r.mkt_bias_score - current.mkt_bias_score| ≥ BIAS_SCORE_DELTA_ALERT
          ∨ l.heartbeat_day ≠ today)))
    ∧ (∀ (l : Snapshot) (tr : Trend) (fe : ℤ) (fu vr : ℚ) (gw : Bool)
        (gd : GlitchDir),
        should_notify current
          (some { l with r := { l.r with
            trend := tr
            fear := fe
            funding := fu
            volume_ratio := vr
            glitch_watch := gw
            glitch_direction := gd } }) today
          = should_notify current (some l) today) := by
  refine ⟨rfl, ?_, ?_⟩
  · intro l
    simp only [should_notify]
    split_ifs <;> simp_all
  · intro l tr fe fu vr gw gd
    simp only [should_notify]

/-- Witness for C6: a first run (no persisted snapshot) notifies, and a
later snapshot identical in every monitored field on the same day does
not. -/
theorem should_notify_iff_witness :
    should_notify sampleResult none 0 = true
    ∧ should_notify sampleResult
        (some { r := sampleResult, heartbeat_day := 0 }) 0 = false := by
  have h := should_notify_iff sampleResult 0
  refine ⟨h.1, ?_⟩
  have h2 := (h.2.1 { r := sampleResult, heartbeat_day := 0 }).not
  simp only [Bool.not_eq_true] at h2
  apply h2.mpr
  simp [CONFIDENCE_DELTA_ALERT, HEALTH_DELTA_ALERT, BIAS_SCORE_DELTA_ALERT]

/-- Claim C7: with every monitored field frozen across invocations, exactly
one notification fires per UTC calendar day: the first invocation whose
day differs from the persisted heartbeat marker (or that has no snapshot at
all) notifies, and every later invocation the same day does not, because
`main_step` persists the day marker in the snapshot on every run whether or
not a notification fired. -/
theorem daily_heartbeat (current : Result) (d : ℤ) (last : Option Snapshot)
    (n : ℕ) (h : ∀ s, last = some s → s.heartbeat_day ≠ d) :
    run_frozen current d last (n + 1) = true :: List.replicate n false := by
  have hfirst : should_notify current last d = true := by
    cases last with
    | none => rfl
    | some s =>
      have hs := h s rfl
      simp only [should_notify]
      split_ifs <;> simp_all
  have hrepeat : ∀ m : ℕ,
      run_frozen current d (some { r := current, heartbeat_day := d }) m
        = List.replicate m false := by
    intro m
    induction m with
    | zero => rfl
    | succ k ih =>
      have hstep : should_notify current
          (some { r := current, heartbeat_day := d }) d = false := by
        simp [should_notify, CONFIDENCE_DELTA_ALERT, HEALTH_DELTA_ALERT,
          BIAS_SCORE_DELTA_ALERT]
      simp [run_frozen, main_step, hstep, ih, List.replicate_succ]
  simp [run_frozen, main_step, hfirst, hrepeat n]

/-- Witness for C7: three frozen invocations starting with no snapshot give
one notification followed by two suppressions. -/
theorem daily_heartbeat_witness :
    run_frozen sampleResult 0 none 3 = [true, false, false] := by
  have h := daily_heartbeat sampleResult 0 none 2 (by simp)
  simpa using h

/-- Claim C8: every feature extractor falls back to its neutral default when
fewer bars than its required minimum are available, and (being total Lean
functions over the list, with every sparse case guarded) none can fail: a
trend needs 15 bars else RANGE, the volume ratio needs 25 bars else 1.0,
the 5-day change needs days+1 = 6 bars else 0.0, the range multiplier
needs lookback+2 = 22 bars else 1.0; hence any sequence shorter than the
smallest minimum (in particular the empty sequence) gets exactly the
all-neutral FeatureSet. -/
theorem sparse_klines_defaults (klines : List Candle) :
    (klines.length < 15 → get_trend klines = .RANGE)
    ∧ (klines.length < 25 → get_volume_ratio klines = 1)
    ∧ (klines.length < 6 → get_recent_change_pct klines 5 = 0)
    ∧ (klines.length < 22 → get_range_multiplier klines 20 = 1)
    ∧ (klines.length < 6 →
        get_trend klines = .RANGE ∧ get_volume_ratio klines = 1
        ∧ get_recent_change_pct klines 5 = 0
        ∧ get_range_multiplier klines 20 = 1) := by
  have h1 : klines.length < 15 → get_trend klines = .RANGE := by
    intro h
    simp [get_trend, h]
  have h2 : klines.length < 25 → get_volume_ratio klines = 1 := by
    intro h
    simp [get_volume_ratio, h]
  have h3 : klines.length < 6 → get_recent_change_pct klines 5 = 0 := by
    intro h
    simp [get_recent_change_pct, h]
  have h4 : klines.length < 22 → get_range_multiplier klines 20 = 1 := by
    intro h
    simp [get_range_multiplier, h]
  exact ⟨h1, h2, h3, h4, fun h =>
    ⟨h1 (by omega), h2 (by omega), h3 h, h4 (by omega)⟩⟩

/-- Witness for C8: the empty candle sequence yields all four neutral
defaults. -/
theorem sparse_klines_defaults_witness :
    get_trend [] = .RANGE ∧ get_volume_ratio [] = 1
    ∧ get_recent_change_pct [] 5 = 0 ∧ get_range_multiplier [] 20 = 1 := by
  exact (sparse_klines_defaults []).2.2.2.2 (by simp)

/-- Claim C9: for fixed regime, fear, funding, capitulation, retail and
absorption flags, with the confirmed-glitch flag true the health score with
direction BEAR_GLITCH is strictly below the score with direction
BULL_GLITCH whenever neither clamp bound is hit (stated as: the unclamped
bear-direction sum is at least 0 and the unclamped bull-direction sum is at
most 100), because the bear penalty (18) is heavier than the bull penalty
(8); and for every direction and confirmation flag the result is clamped
to [0, 100]. -/
theorem health_direction_penalty (regime : Regime) (fear : ℤ) (funding : ℚ)
    (capitulation_risk retail_flag absorption : Bool) :
    (∀ (glitch_conf : Bool) (g_dir : GlitchDir),
      0 ≤ compute_health regime fear funding capitulation_risk retail_flag
            absorption glitch_conf g_dir
      ∧ compute_health regime fear funding capitulation_risk retail_flag
            absorption glitch_conf g_dir ≤ 100)
    ∧ (0 ≤ compute_health_raw regime fear funding capitulation_risk
            retail_flag absorption true .BEAR_GLITCH →
      compute_health_raw regime fear funding capitulation_risk retail_flag
            absorption true .BULL_GLITCH ≤ 100 →
      compute_health regime fear funding capitulation_risk retail_flag
            absorption true .BEAR_GLITCH
        < compute_health regime fear funding capitulation_risk retail_flag
            absorption true .BULL_GLITCH) := by
  have hdiff : compute_health_raw regime fear funding capitulation_risk
      retail_flag absorption true .BULL_GLITCH
      = compute_health_raw regime fear funding capitulation_risk retail_flag
          absorption true .BEAR_GLITCH + 10 := by
    simp [compute_health_raw]
    ring
  constructor
  · intro glitch_conf g_dir
    unfold compute_health
    omega
  · intro h1 h2
    unfold compute_health
    rw [hdiff] at h2 ⊢
    omega

/-- Witness for C9 at a concrete input (CHOP regime, fear 50, funding 0, no
flags): both unclamped sums lie inside the clamp range and the
bear-direction health is strictly below the bull-direction health. -/
theorem health_direction_penalty_witness :
    0 ≤ compute_health_raw .CHOP_MODE 50 0 false false false true .BEAR_GLITCH
    ∧ compute_health_raw .CHOP_MODE 50 0 false false false true .BULL_GLITCH ≤ 100
    ∧ compute_health .CHOP_MODE 50 0 false false false true .BEAR_GLITCH
        < compute_health .CHOP_MODE 50 0 false false false true .BULL_GLITCH := by
  have hb : 0 ≤ compute_health_raw .CHOP_MODE 50 0 false false false true
      .BEAR_GLITCH := by
    norm_num [compute_health_raw, FEAR_DEEP, FUNDING_RETAIL]
    simp
  have hu : compute_health_raw .CHOP_MODE 50 0 false false false true
      .BULL_GLITCH ≤ 100 := by
    norm_num [compute_health_raw, FEAR_DEEP, FUNDING_RETAIL]
    simp
  exact ⟨hb, hu,
    (health_direction_penalty .CHOP_MODE 50 0 false false false).2 hb hu⟩

/-- Claim C10: the derived green and red candle flags are mutually exclusive
and exhaustive (each candle is green exactly when it is not red), a candle
whose close equals its open counts as green (close at-or-above open) and
not red, and consequently a flat doji satisfies the green-candle
requirement of bear-direction glitch confirmation: with a watch open,
direction BEAR_GLITCH, regime BEAR or CHOP, and the wick ratio at/above the
confirmation threshold, the confirmation flag is set true. -/
theorem doji_green (k : Candle) :
    ((candle_metrics_from_kline k).green = !(candle_metrics_from_kline k).red)
    ∧ (k.c = k.o → (candle_metrics_from_kline k).green = true
        ∧ (candle_metrics_from_kline k).red = false)
    ∧ (∀ (meta : MetaState) (regime : Regime) (range_mult : ℚ) (now : ℤ),
        glitch_watch_active meta now = true →
        get_glitch_direction meta = .BEAR_GLITCH →
        (regime = .BEAR_MODE ∨ regime = .CHOP_MODE) →
        k.c = k.o →
        (candle_metrics_from_kline k).wick_ratio ≥ WICK_RATIO_CONFIRM →
        (confirm_glitch_if_needed meta regime (candle_metrics_from_kline k)
            range_mult now).glitch_confirmed = some true) := by
  refine ⟨?_, ?_, ?_⟩
  · rcases le_or_lt k.o k.c with h | h
    · simp [candle_metrics_from_kline, h, h.not_lt]
    · simp [candle_metrics_from_kline, h, h.not_le]
  · intro hco
    simp [candle_metrics_from_kline, hco]
  · intro meta regime range_mult now hactive hdir hreg hco hwick
    have hg : (candle_metrics_from_kline k).green = true := by
      simp [candle_metrics_from_kline, hco]
    rcases hreg with h | h <;> subst h <;>
      simp [confirm_glitch_if_needed, hactive, hdir, hg, hwick]

/-- Witness for C10 at a concrete flat doji candle (open 1, high 2, low 0,
close 1, wick ratio 1) against a concrete open BEAR_GLITCH watch. -/
theorem doji_green_witness :
    (candle_metrics_from_kline ⟨1, 2, 0, 1, 0⟩).green = true
    ∧ (candle_metrics_from_kline ⟨1, 2, 0, 1, 0⟩).red = false
    ∧ (confirm_glitch_if_needed capitulatedMeta .BEAR_MODE
        (candle_metrics_from_kline ⟨1, 2, 0, 1, 0⟩) 1 0).glitch_confirmed
      = some true := by
  have h := doji_green ⟨1, 2, 0, 1, 0⟩
  have h2 := h.2.1 rfl
  have h3 := h.2.2 capitulatedMeta .BEAR_MODE 1 0 (by decide) rfl (Or.inl rfl)
    rfl (by norm_num [candle_metrics_from_kline, WICK_RATIO_CONFIRM])
  exact ⟨h2.1, h2.2, h3⟩

end MarketRadar
